import Mathlib

/-!
Verification of the drug-safety application core (src/app.py).

The embedding models Python strings as lists of characters.  Korean string
literals of the source are rendered with the English names that the
specification uses for them throughout:
  "정보 없음"            ->  "no information"        (missing-field sentinel)
  "성분 정보 없음"        ->  "ingredient unknown"    (unknown-ingredient sentinel)
  "등록된 약 (성분: X)"   ->  "registered drug (ingredient: X)"
and the entries of the static ingredient map are rendered by the drug names
the specification uses (Tylenol, Acetaminophen, Aspirin, ...).  The case
functions model Python str.lower / str.upper / str.capitalize on the ASCII
range, which covers every rendered literal and every example of the
specification.
-/

namespace DrugSafety

/-- Python strings are modelled as lists of characters. -/
abbrev Str := List Char

/-- Python str.lower (ASCII range). -/
def pyLower (s : Str) : Str := s.map Char.toLower

/-- Python str.upper (ASCII range). -/
def pyUpper (s : Str) : Str := s.map Char.toUpper

/-- Python str.capitalize: first character upper-cased, the rest lower-cased. -/
def pyCapitalize (s : Str) : Str :=
  match s with
  | [] => []
  | c :: cs => Char.toUpper c :: cs.map Char.toLower

/-- Python str.strip: drop whitespace from both ends. -/
def pyStrip (s : Str) : Str :=
  ((s.dropWhile Char.isWhitespace).reverse.dropWhile Char.isWhitespace).reverse

/-- Python substring membership test, needle in hay. -/
def subMem (needle hay : Str) : Bool :=
  match hay with
  | [] => needle.isEmpty
  | c :: rest => needle.isPrefixOf (c :: rest) || subMem needle rest

/-- Python str.index for substrings, returning none instead of raising
ValueError: index of the first occurrence of the needle in the hay. -/
def findSub (needle hay : Str) : Option Nat :=
  match hay with
  | [] => if needle.isEmpty then some 0 else none
  | c :: rest =>
    if needle.isPrefixOf (c :: rest) then some 0
    else (findSub needle rest).map (fun i => i + 1)

/-- Helper for removeAll: the Nat counts characters of a matched target that
remain to be skipped. -/
def removeAllAux (target : Str) : Nat → Str → Str
  | _, [] => []
  | Nat.succ n, _ :: rest => removeAllAux target n rest
  | 0, c :: rest =>
    if target.isPrefixOf (c :: rest) && !target.isEmpty
    then removeAllAux target (target.length - 1) rest
    else c :: removeAllAux target 0 rest

/-- Python s.replace(target, ""): delete every non-overlapping occurrence of
the target, scanning left to right. -/
def removeAll (target s : Str) : Str := removeAllAux target 0 s

/-- UTF-8 bytes of a code point, as used by urllib.parse.quote. -/
def utf8Bytes (n : Nat) : List Nat :=
  if n < 128 then [n]
  else if n < 2048 then [192 + n / 64, 128 + n % 64]
  else if n < 65536 then [224 + n / 4096, 128 + (n / 64) % 64, 128 + n % 64]
  else [240 + n / 262144, 128 + (n / 4096) % 64, 128 + (n / 64) % 64, 128 + n % 64]

/-- Upper-case hexadecimal digit. -/
def hexDigit (n : Nat) : Char := if n < 10 then Char.ofNat (48 + n) else Char.ofNat (55 + n)

/-- urllib.parse.quote on one character (default safe set, which keeps '/'). -/
def quoteChar (c : Char) : Str :=
  if c.isAlphanum || c = '_' || c = '.' || c = '-' || c = '~' || c = '/'
  then [c]
  else ((utf8Bytes c.toNat).map (fun b => ['%', hexDigit (b / 16), hexDigit (b % 16)])).flatten

/-- urllib.parse.quote. -/
def urlQuote (s : Str) : Str := (s.map quoteChar).flatten

/-- The static ingredient map DRUG_INGREDIENT_MAP of src/app.py, trade or
generic name to canonical active ingredient, entries rendered in English. -/
def DRUG_INGREDIENT_MAP : List (Str × Str) :=
  [(("Tylenol").data, ("Acetaminophen").data),
   (("Geborin").data, ("Isopropylantipyrine").data),
   (("Pancola").data, ("Acetaminophen").data),
   (("Aspirin").data, ("Acetylsalicylic acid").data),
   (("Easyen6").data, ("Ibuprofen").data),
   (("Brufen").data, ("Ibuprofen").data),
   (("Acetaminophen").data, ("Acetaminophen").data),
   (("Ibuprofen").data, ("Ibuprofen").data),
   (("Naproxen").data, ("Naproxen").data)]

/-- Python dict.get on the ingredient map. -/
def mapGet (m : List (Str × Str)) (k : Str) : Option Str :=
  (m.find? (fun p => p.1 == k)).map (fun p => p.2)

/-- One raw formulary item of the external API: a partial map from field
name to string value. -/
abbrev RawItem := Str → Option Str

/-- One normalized formulary record, the dictionary built by
extract_drug_info.  Field names follow section 3 of the specification:
effect = 효과, dosage = 투약량, precaution = 주의사항,
interactionText = 병용금기, ingredient = 성분, name = 약품명. -/
structure DrugRecord where
  effect : Str
  dosage : Str
  precaution : Str
  interactionText : Str
  ingredient : Str
  name : Str
  itemSeq : Option Str
  deriving DecidableEq

/-- safe_extract of src/app.py: read one field of a raw item; absent or
null-like values become the sentinel, otherwise paragraph tags are removed
and the value is trimmed. -/
def safe_extract (item : RawItem) (key : Str) : Str :=
  match item key with
  | none => ("no information").data
  | some v =>
    if pyLower v = ("none").data ∨ pyLower v = ("null").data ∨ pyLower v = ("").data
    then ("no information").data
    else pyStrip (removeAll ("</p>").data (removeAll ("<p>").data v))

/-- extract_drug_info of src/app.py: normalize one raw item, using the
search term as the fallback display name. -/
def extract_drug_info (item : RawItem) (search_term : Str) : DrugRecord :=
  { effect := safe_extract item ("efcyQesitm").data,
    dosage := safe_extract item ("useMethodQesitm").data,
    precaution := safe_extract item ("atpnWarnQesitm").data,
    interactionText := safe_extract item ("intrcQesitm").data,
    ingredient := safe_extract item ("mainItemIngr").data,
    name := (item ("itemName").data).getD search_term,
    itemSeq := item ("itemSeq").data }

/-- Which filter parameter a query to the external service carries. -/
inductive FilterKind where
  | itemName : FilterKind
  | ingrName : FilterKind
  deriving DecidableEq

/-- One query issued to the external formulary service, capturing the params
dictionary built in search_drug_info. -/
structure Query where
  serviceKey : Str
  filterField : FilterKind
  filterValue : Str
  qtype : Str
  numOfRows : Str
  deriving DecidableEq

/-- Outcome of one HTTP attempt against the formulary service:
transportError covers network failures and non-2xx statuses raised by
raise_for_status, badJson an unparsable body, parsed a decoded JSON body
with its header result code and its items array (none when the body or
items key is missing). -/
inductive ApiResult where
  | transportError : ApiResult
  | badJson : ApiResult
  | parsed : Option Str → Option (List RawItem) → ApiResult

/-- perform_search of src/app.py, given the outcome of its single HTTP
request: failures and empty or non-success bodies yield none, success
yields the normalized items. -/
def perform_search (resp : ApiResult) (original_drug_name : Str) (multiple_results : Bool) :
    Option (List DrugRecord) :=
  match resp with
  | ApiResult.transportError => none
  | ApiResult.badJson => none
  | ApiResult.parsed rc items =>
    if rc = some ("00").data ∨ rc = some ("0").data then
      match items with
      | none => none
      | some [] => none
      | some (it :: its) =>
        if multiple_results
        then some ((it :: its).map (fun x => extract_drug_info x original_drug_name))
        else some [extract_drug_info it original_drug_name]
    else none

/-- Python truthiness of an optional list, as used on the result of
perform_search. -/
def optTruthy : Option (List DrugRecord) → Bool
  | none => false
  | some l => !l.isEmpty

/-- The stage-1 params dictionary of search_drug_info (itemName filter). -/
def stage1Query (key encoded : Str) : Query :=
  { serviceKey := key, filterField := FilterKind.itemName, filterValue := encoded,
    qtype := ("json").data, numOfRows := ("3").data }

/-- The stage-2 params dictionary of search_drug_info (ingrName filter). -/
def stage2Query (key encoded : Str) : Query :=
  { serviceKey := key, filterField := FilterKind.ingrName, filterValue := encoded,
    qtype := ("json").data, numOfRows := ("3").data }

/-- search_drug_info of src/app.py, instrumented: the external service is a
function from queries to outcomes, and the returned pair carries the queries
actually issued, in order, so that call counts can be stated.  The service
key is none when the environment variable is unset. -/
def search_drug_info (service : Query → ApiResult) (service_key : Option Str)
    (drug_name : Str) : Option (List DrugRecord) × List Query :=
  match service_key with
  | none => (none, [])
  | some key =>
    if key.isEmpty then (none, [])
    else
      let q1 := stage1Query key (urlQuote drug_name)
      let r1 := perform_search (service q1) drug_name true
      if optTruthy r1 then (r1, [q1])
      else
        let q2 := stage2Query key (urlQuote drug_name)
        let r2 := perform_search (service q2) drug_name true
        if optTruthy r2 then (r2, [q1, q2])
        else (none, [q1, q2])

/-- One entry of the user medication list, a dictionary with name and
ingredient as built by add_drug. -/
structure MedEntry where
  name : Str
  ingredient : Str
  deriving DecidableEq

/-- One interaction warning, the dictionary appended by
check_contraindications. -/
structure Warning where
  searched_drug : Str
  conflict_drug : Str
  info : Str
  deriving DecidableEq

/-- The lower-cased ingredient values of the map, as computed by the list
comprehension inside check_contraindications. -/
def ingredientValuesLower : List Str := DRUG_INGREDIENT_MAP.map (fun p => pyLower p.2)

/-- The display label of a matched keyword: the composed ingredient label
when the keyword is a lower-cased ingredient value of the map, otherwise
the keyword with its first letter capitalized. -/
def conflictLabel (keyword : Str) : Str :=
  if keyword ∈ ingredientValuesLower
  then ("registered drug (ingredient: ").data ++ pyUpper keyword ++ (")").data
  else pyCapitalize keyword

/-- The highlighted interaction text: the first occurrence of the keyword in
the folded, trimmed text is located, and that span of the original text is
wrapped in bold tags; if locating fails the original text is returned
unchanged (the except ValueError branch of the source). -/
def highlightInfo (orig keyword : Str) : Str :=
  match findSub keyword (pyStrip (pyLower orig)) with
  | some i =>
    orig.take i ++ ("<b>").data ++ (orig.drop i).take keyword.length
      ++ ("</b>").data ++ orig.drop (i + keyword.length)
  | none => orig

/-- Set insertion for the keyword set, modelled as a duplicate-free list. -/
def addKw (s : List Str) (k : Str) : List Str := if k ∈ s then s else s ++ [k]

/-- One step of the keyword-collection loop of check_contraindications. -/
def keywordStep (s : List Str) (d : MedEntry) : List Str :=
  let nm := pyLower d.name
  let ingr := pyLower d.ingredient
  let s1 := if nm.isEmpty then s else addKw s nm
  if ingr = ("ingredient unknown").data then s1 else addKw s1 ingr

/-- The keyword set built from the medication list at the top of
check_contraindications. -/
def buildKeywords (my_drugs : List MedEntry) : List Str :=
  my_drugs.foldl keywordStep []

/-- The inner keyword loop of check_contraindications for one record: skip
the record when its folded trimmed interaction text is the sentinel,
otherwise emit one warning for the first matching keyword (break
semantics). -/
def recordWarning (keywords : List Str) (rec : DrugRecord) : Option Warning :=
  let orig := rec.interactionText
  let low := pyStrip (pyLower orig)
  if low = ("no information").data then none
  else
    match keywords.find? (fun k => subMem k low) with
    | none => none
    | some k =>
      some { searched_drug := rec.name, conflict_drug := conflictLabel k,
             info := highlightInfo orig k }

/-- check_contraindications of src/app.py. -/
def check_contraindications (records : List DrugRecord) (my_drugs : List MedEntry) :
    List Warning :=
  if my_drugs.isEmpty then []
  else records.filterMap (recordWarning (buildKeywords my_drugs))

/-- add_drug of src/app.py, on the session medication list: the raw form
input is none when the field is missing; a falsy input is a no-op, otherwise
the trimmed, capitalized name is inserted with its mapped ingredient unless
an entry with the same folded name already exists. -/
def add_drug (my_drugs : List MedEntry) (raw_drug_input : Option Str) : List MedEntry :=
  let drug_to_add := match raw_drug_input with
    | none => []
    | some s => if s.isEmpty then [] else pyStrip s
  if drug_to_add.isEmpty then my_drugs
  else
    let ingredient := (mapGet DRUG_INGREDIENT_MAP (pyCapitalize drug_to_add)).getD
      (("ingredient unknown").data)
    let new_drug_item : MedEntry := { name := pyCapitalize drug_to_add, ingredient := ingredient }
    if pyLower new_drug_item.name ∈ my_drugs.map (fun d => pyLower d.name) then my_drugs
    else my_drugs ++ [new_drug_item]

/-- remove_drug of src/app.py, on the session medication list, given the
already URL-decoded name from the route. -/
def remove_drug (my_drugs : List MedEntry) (drug_name : Str) : List MedEntry :=
  my_drugs.filter (fun d => !(pyLower d.name == pyLower drug_name))

/-!
Statement-side definitions.  These follow the wording of the specification
and are compared against the embedded source functions by the theorems
below.
-/

/-- Specification wording for when the matcher emits a warning for a
record: its interaction text, case-folded and trimmed, is not the sentinel,
and at least one keyword of the index occurs as a substring of that folded
text. -/
def emits (keywords : List Str) (rec : DrugRecord) : Bool :=
  decide (pyStrip (pyLower rec.interactionText) ≠ ("no information").data)
    && keywords.any (fun k => subMem k (pyStrip (pyLower rec.interactionText)))

/-- Specification wording for the warning produced for a matching record:
it is built from the first keyword of the index that occurs in the folded
text.  The value on a non-matching record is irrelevant (the matcher never
uses it there). -/
def warnFor (keywords : List Str) (rec : DrugRecord) : Warning :=
  match keywords.find? (fun k => subMem k (pyStrip (pyLower rec.interactionText))) with
  | some k =>
    { searched_drug := rec.name, conflict_drug := conflictLabel k,
      info := highlightInfo rec.interactionText k }
  | none => { searched_drug := rec.name, conflict_drug := [], info := rec.interactionText }

/-- The failure taxonomy of section 7 of the specification for a single
query: transport failure or non-2xx, unparsable body, non-success result
code, or a missing or empty items array. -/
def respUnusable (r : ApiResult) : Prop :=
  r = ApiResult.transportError ∨ r = ApiResult.badJson ∨
  ∃ rc items, r = ApiResult.parsed rc items ∧
    (¬(rc = some ("00").data ∨ rc = some ("0").data) ∨ items = none ∨ items = some [])

/-!
Lemmas.
-/

/-- The empty needle is a substring of every string. -/
theorem subMem_nil (hay : Str) : subMem [] hay = true := by
  induction hay with
  | nil => rfl
  | cons c rest ih => simp [subMem, List.isPrefixOf]

/-- findSub returns the index of the first occurrence: the needle is a
prefix of the tail at the returned index and at no earlier index. -/
theorem findSub_spec (needle : Str) :
    ∀ (hay : Str) (i : Nat), findSub needle hay = some i →
      needle.isPrefixOf (hay.drop i) = true ∧
      ∀ j, j < i → needle.isPrefixOf (hay.drop j) = false := by
  intro hay
  induction hay with
  | nil =>
    intro i h
    unfold findSub at h
    split at h
    · rename_i he
      cases h
      refine ⟨?_, fun j hj => absurd hj (Nat.not_lt_zero j)⟩
      simp_all [List.isEmpty_iff, List.isPrefixOf]
    · cases h
  | cons c rest ih =>
    intro i h
    unfold findSub at h
    split at h
    · rename_i hp
      cases h
      exact ⟨hp, fun j hj => absurd hj (Nat.not_lt_zero j)⟩
    · rename_i hp
      rcases Option.map_eq_some'.mp h with ⟨i0, hrec, rfl⟩
      rcases ih i0 hrec with ⟨h1, h2⟩
      refine ⟨h1, fun j hj => ?_⟩
      cases j with
      | zero => simpa using Bool.of_not_eq_true hp
      | succ j0 => simpa using h2 j0 (Nat.lt_of_succ_lt_succ hj)

/-- A boolean prefix gives the corresponding take. -/
theorem take_len_of_isPrefixOf {n l : Str} (h : n.isPrefixOf l = true) :
    l.take n.length = n :=
  (List.prefix_iff_eq_take.mp (List.isPrefixOf_iff_prefix.mp h)).symm

/-- Membership in the set-insertion helper. -/
theorem mem_addKw (s : List Str) (x k : Str) : k ∈ addKw s x ↔ k ∈ s ∨ k = x := by
  unfold addKw
  split
  · rename_i hx
    constructor
    · exact Or.inl
    · rintro (h | rfl)
      · exact h
      · exact hx
  · simp

/-- Membership after one step of the keyword-collection loop. -/
theorem mem_keywordStep (s : List Str) (d : MedEntry) (k : Str) :
    k ∈ keywordStep s d ↔ k ∈ s ∨
      (k = pyLower d.name ∧ pyLower d.name ≠ []) ∨
      (k = pyLower d.ingredient ∧ pyLower d.ingredient ≠ ("ingredient unknown").data) := by
  unfold keywordStep
  by_cases hn : (pyLower d.name).isEmpty <;>
    by_cases hi : pyLower d.ingredient = ("ingredient unknown").data <;>
      simp_all [mem_addKw, List.isEmpty_iff, or_assoc]

/-- Membership in the keyword fold with an arbitrary accumulator. -/
theorem mem_foldl_keywordStep (drugs : List MedEntry) :
    ∀ (acc : List Str) (k : Str),
      k ∈ drugs.foldl keywordStep acc ↔ k ∈ acc ∨
        ∃ d ∈ drugs,
          (k = pyLower d.name ∧ pyLower d.name ≠ []) ∨
          (k = pyLower d.ingredient ∧ pyLower d.ingredient ≠ ("ingredient unknown").data) := by
  induction drugs with
  | nil => simp
  | cons d ds ih =>
    intro acc k
    rw [List.foldl_cons, ih, mem_keywordStep]
    constructor
    · rintro ((h | h) | ⟨d0, hd0, h⟩)
      · exact Or.inl h
      · exact Or.inr ⟨d, List.mem_cons_self d ds, h⟩
      · exact Or.inr ⟨d0, List.mem_cons_of_mem d hd0, h⟩
    · rintro (h | ⟨d0, hd0, h⟩)
      · exact Or.inl (Or.inl h)
      · rcases List.mem_cons.mp hd0 with rfl | hd0
        · exact Or.inl (Or.inr h)
        · exact Or.inr ⟨d0, hd0, h⟩

/-- Membership in the keyword index. -/
theorem mem_buildKeywords (drugs : List MedEntry) (k : Str) :
    k ∈ buildKeywords drugs ↔
      ∃ d ∈ drugs,
        (k = pyLower d.name ∧ pyLower d.name ≠ []) ∨
        (k = pyLower d.ingredient ∧ pyLower d.ingredient ≠ ("ingredient unknown").data) := by
  unfold buildKeywords
  rw [mem_foldl_keywordStep]
  simp

/-- The inner keyword loop, characterized by the specification wording:
a warning is produced exactly when the emission condition holds, and then
it is the warning of the first matching keyword. -/
theorem recordWarning_eq (keywords : List Str) (rec : DrugRecord) :
    recordWarning keywords rec
      = if emits keywords rec then some (warnFor keywords rec) else none := by
  unfold recordWarning emits warnFor
  by_cases h1 : pyStrip (pyLower rec.interactionText) = ("no information").data
  · simp [h1]
  · rw [if_neg h1]
    cases hf : keywords.find? (fun k => subMem k (pyStrip (pyLower rec.interactionText))) with
    | none =>
      have hany : keywords.any (fun k => subMem k (pyStrip (pyLower rec.interactionText))) = false :=
        List.any_eq_false.mpr (List.find?_eq_none.mp hf)
      simp [h1, hany]
    | some k =>
      have hpk : subMem k (pyStrip (pyLower rec.interactionText)) = true :=
        @List.find?_some Str (fun k2 => subMem k2 (pyStrip (pyLower rec.interactionText)))
          k keywords hf
      have hany : keywords.any (fun k => subMem k (pyStrip (pyLower rec.interactionText))) = true :=
        List.any_eq_true.mpr ⟨k, List.mem_of_find?_eq_some hf, hpk⟩
      simp [h1, hany, hf]

/-- A filterMap whose function is an if-guarded some is a filter followed
by a map. -/
theorem filterMap_eq_filter_map {α β : Type} (f : α → Option β) (p : α → Bool) (g : α → β)
    (h : ∀ x, f x = if p x then some (g x) else none) :
    ∀ l : List α, l.filterMap f = (l.filter p).map g := by
  intro l
  induction l with
  | nil => rfl
  | cons x xs ih =>
    cases hp : p x <;>
      simp [List.filterMap_cons, List.filter_cons, h x, hp, ih]

/-- C2: the matcher emits a warning for a record exactly when the folded,
trimmed interaction text is not the sentinel and some keyword of the index
occurs in it; at most one warning per record, built from the first matching
keyword, and the warning sequence preserves the record order.  The filter
over the records followed by a map formalizes the one-per-record and
order-preservation parts; the second conjunct is the emission condition. -/
theorem c2_matcher_spec (records : List DrugRecord) (my_drugs : List MedEntry) :
    check_contraindications records my_drugs
      = (records.filter (emits (buildKeywords my_drugs))).map (warnFor (buildKeywords my_drugs))
    ∧ (∀ rec : DrugRecord, emits (buildKeywords my_drugs) rec = true ↔
        (pyStrip (pyLower rec.interactionText) ≠ ("no information").data ∧
         ∃ k ∈ buildKeywords my_drugs,
           subMem k (pyStrip (pyLower rec.interactionText)) = true)) := by
  constructor
  · unfold check_contraindications
    by_cases hm : my_drugs.isEmpty
    · rw [if_pos hm]
      rcases List.isEmpty_iff.mp hm with rfl
      have hf : records.filter (emits (buildKeywords [])) = [] := by
        refine List.filter_eq_nil_iff.mpr (fun r _ => ?_)
        simp [emits, buildKeywords]
      rw [hf, List.map_nil]
    · rw [if_neg hm]
      exact filterMap_eq_filter_map _ _ _ (recordWarning_eq (buildKeywords my_drugs)) records
  · intro rec
    simp [emits, List.any_eq_true]

/-- C4: field normalization yields the sentinel for absent or null-like
values and otherwise the string with paragraph tags removed and whitespace
trimmed.  The embedding is a total function, so normalization cannot
raise. -/
theorem c4_safe_extract_spec :
    (∀ (item : RawItem) (key : Str), item key = none →
       safe_extract item key = ("no information").data)
    ∧ (∀ (item : RawItem) (key v : Str), item key = some v →
         (pyLower v = ("none").data ∨ pyLower v = ("null").data ∨ pyLower v = []) →
         safe_extract item key = ("no information").data)
    ∧ (∀ (item : RawItem) (key v : Str), item key = some v →
         ¬(pyLower v = ("none").data ∨ pyLower v = ("null").data ∨ pyLower v = []) →
         safe_extract item key
           = pyStrip (removeAll ("</p>").data (removeAll ("<p>").data v))) := by
  refine ⟨fun item key h => ?_, fun item key v h hv => ?_, fun item key v h hv => ?_⟩
  · unfold safe_extract
    rw [h]
  · unfold safe_extract
    rw [h]
    exact if_pos hv
  · unfold safe_extract
    rw [h]
    exact if_neg hv

/-- C7: the keyword index contains exactly the folded non-empty names and
the folded non-sentinel ingredients of the medication list; the example
list containing Tylenol with ingredient Acetaminophen produces both
keywords; and the matcher reports zero warnings for the empty medication
list, for every record list. -/
theorem c7_keyword_index_spec :
    (∀ (my_drugs : List MedEntry) (k : Str),
       k ∈ buildKeywords my_drugs ↔
         ∃ d ∈ my_drugs,
           (k = pyLower d.name ∧ d.name ≠ []) ∨
           (k = pyLower d.ingredient ∧
            pyLower d.ingredient ≠ ("ingredient unknown").data))
    ∧ (("tylenol").data ∈ buildKeywords [⟨("Tylenol").data, ("Acetaminophen").data⟩]
       ∧ ("acetaminophen").data ∈ buildKeywords [⟨("Tylenol").data, ("Acetaminophen").data⟩])
    ∧ (∀ records : List DrugRecord, check_contraindications records [] = []) := by
  refine ⟨fun my_drugs k => ?_, ⟨by decide, by decide⟩, fun records => rfl⟩
  rw [mem_buildKeywords]
  constructor
  · rintro ⟨d, hd, (⟨hk, hne⟩ | h)⟩
    · exact ⟨d, hd, Or.inl ⟨hk, fun he => hne (by rw [he]; rfl)⟩⟩
    · exact ⟨d, hd, Or.inr h⟩
  · rintro ⟨d, hd, (⟨hk, hne⟩ | h)⟩
    · refine ⟨d, hd, Or.inl ⟨hk, fun he => hne ?_⟩⟩
      exact (List.map_eq_nil_iff.mp he)
    · exact ⟨d, hd, Or.inr h⟩

/-- C9: removal is case-insensitive filtering: the result is a sublist of
the prior list (original order, entries unchanged), an entry survives
exactly when it was present with a different folded name, and the count of
every entry whose folded name matches the request drops to zero while all
other counts are unchanged. -/
theorem c9_remove_drug_spec (my_drugs : List MedEntry) (drug_name : Str) :
    (remove_drug my_drugs drug_name).Sublist my_drugs
    ∧ (∀ d : MedEntry, d ∈ remove_drug my_drugs drug_name ↔
        (d ∈ my_drugs ∧ pyLower d.name ≠ pyLower drug_name))
    ∧ (∀ d : MedEntry, List.count d (remove_drug my_drugs drug_name)
        = if pyLower d.name = pyLower drug_name then 0 else List.count d my_drugs) := by
  refine ⟨List.filter_sublist my_drugs, fun d => ?_, fun d => ?_⟩
  · unfold remove_drug
    rw [List.mem_filter]
    simp
  · unfold remove_drug
    by_cases h : pyLower d.name = pyLower drug_name
    · rw [if_pos h]
      refine List.count_eq_zero.mpr (fun hmem => ?_)
      have := (List.mem_filter.mp hmem).2
      simp [h] at this
    · rw [if_neg h]
      refine List.count_filter ?_
      simp [h]

/-- C3: on a trimmed interaction text, the warning text wraps exactly the
first occurrence of the keyword, with the wrapped span taken from the
original text (case preserved); when locating the occurrence fails the text
is returned unmarked; and the inner loop still emits the warning, its info
being whatever the highlighter produced. -/
theorem c3_highlight_spec :
    (∀ (orig k : Str) (i : Nat),
       pyStrip (pyLower orig) = pyLower orig →
       findSub k (pyStrip (pyLower orig)) = some i →
       highlightInfo orig k
         = orig.take i ++ ("<b>").data ++ (orig.drop i).take k.length
             ++ ("</b>").data ++ orig.drop (i + k.length)
       ∧ pyLower ((orig.drop i).take k.length) = k
       ∧ (∀ j, j < i → k.isPrefixOf ((pyLower orig).drop j) = false))
    ∧ (∀ (orig k : Str), findSub k (pyStrip (pyLower orig)) = none →
       highlightInfo orig k = orig)
    ∧ (∀ (keywords : List Str) (rec : DrugRecord) (k : Str),
       pyStrip (pyLower rec.interactionText) ≠ ("no information").data →
       keywords.find? (fun k2 => subMem k2 (pyStrip (pyLower rec.interactionText))) = some k →
       recordWarning keywords rec
         = some { searched_drug := rec.name, conflict_drug := conflictLabel k,
                  info := highlightInfo rec.interactionText k }) := by
  refine ⟨fun orig k i h1 h2 => ?_, fun orig k h => ?_, fun keywords rec k h1 h2 => ?_⟩
  · rw [h1] at h2
    rcases findSub_spec k (pyLower orig) i h2 with ⟨hpre, hmin⟩
    refine ⟨?_, ?_, hmin⟩
    · unfold highlightInfo
      rw [h1, h2]
    · unfold pyLower
      rw [List.map_take, List.map_drop]
      exact take_len_of_isPrefixOf hpre
  · unfold highlightInfo
    rw [h]
  · unfold recordWarning
    rw [if_neg h1, h2]

/-- C10: an entry with an empty-string ingredient puts the empty keyword in
the index, and then every record whose folded trimmed interaction text is
not the sentinel produces a warning, whatever its text mentions. -/
theorem c10_empty_ingredient_matches_everything
    (my_drugs : List MedEntry) (records : List DrugRecord)
    (h : ∃ d ∈ my_drugs, d.ingredient = []) :
    [] ∈ buildKeywords my_drugs
    ∧ (check_contraindications records my_drugs).length
        = (records.filter
            (fun r => decide
              (pyStrip (pyLower r.interactionText) ≠ ("no information").data))).length := by
  rcases h with ⟨d, hd, hdi⟩
  have hmem : ([] : Str) ∈ buildKeywords my_drugs := by
    refine (mem_buildKeywords my_drugs []).mpr ⟨d, hd, Or.inr ⟨?_, ?_⟩⟩
    · rw [hdi]; rfl
    · rw [hdi]; decide
  refine ⟨hmem, ?_⟩
  have hne : ¬(my_drugs.isEmpty = true) := by
    intro he
    rcases List.isEmpty_iff.mp he with rfl
    exact absurd hd (List.not_mem_nil d)
  unfold check_contraindications
  rw [if_neg hne,
      filterMap_eq_filter_map _ _ _ (recordWarning_eq (buildKeywords my_drugs)) records,
      List.length_map]
  congr 1
  refine List.filter_congr (fun r _ => ?_)
  unfold emits
  have hany : ((buildKeywords my_drugs).any
      fun k => subMem k (pyStrip (pyLower r.interactionText))) = true :=
    List.any_eq_true.mpr ⟨[], hmem, subMem_nil _⟩
  rw [hany, Bool.and_true]

/-- A single query attempt with any unusable outcome yields none. -/
theorem perform_search_none_of_unusable (r : ApiResult) (h : respUnusable r)
    (nm : Str) (b : Bool) : perform_search r nm b = none := by
  rcases h with rfl | rfl | ⟨rc, items, rfl, hbad⟩
  · rfl
  · rfl
  · rcases hbad with hrc | rfl | rfl
    · simp only [perform_search]
      rw [if_neg hrc]
    · simp only [perform_search]
      split <;> rfl
    · simp only [perform_search]
      split <;> rfl

/-- C6: resolution never surfaces a failure: an unset or empty lookup
credential short-circuits to the not-found value before any query, and when
every query outcome is a transport failure, an unparsable body, a
non-success result code, or a missing or empty items array, both stages
included, the resolver still returns the not-found value.  The embedding is
a total function, so no exception can escape. -/
theorem c6_resolver_never_raises (service : Query → ApiResult) (drug_name : Str) :
    search_drug_info service none drug_name = (none, [])
    ∧ search_drug_info service (some []) drug_name = (none, [])
    ∧ (∀ key : Str, (∀ q : Query, respUnusable (service q)) →
        (search_drug_info service (some key) drug_name).1 = none) := by
  refine ⟨rfl, rfl, fun key hall => ?_⟩
  simp only [search_drug_info]
  by_cases hk : key.isEmpty
  · rw [if_pos hk]
  · rw [if_neg hk]
    have h1 : perform_search (service (stage1Query key (urlQuote drug_name)))
        drug_name true = none :=
      perform_search_none_of_unusable _ (hall _) _ _
    have h2 : perform_search (service (stage2Query key (urlQuote drug_name)))
        drug_name true = none :=
      perform_search_none_of_unusable _ (hall _) _ _
    simp [h1, h2, optTruthy]

/-- C5: the resolver issues the trade-name query first; when that stage is
truthy (at least one record) its result is returned and the ingredient-name
query is never issued; the stage-2 query is issued exactly when stage 1 is
falsy; every issued query requests 3 rows in json; and a successful stage-1
response yields the normalized items in service order with the original
query name as fallback. -/
theorem c5_resolver_stage_order (service : Query → ApiResult) (key drug_name : Str)
    (hk : key ≠ []) :
    (optTruthy (perform_search (service (stage1Query key (urlQuote drug_name)))
        drug_name true) = true →
      search_drug_info service (some key) drug_name
        = (perform_search (service (stage1Query key (urlQuote drug_name))) drug_name true,
           [stage1Query key (urlQuote drug_name)]))
    ∧ (optTruthy (perform_search (service (stage1Query key (urlQuote drug_name)))
        drug_name true) = false →
      (search_drug_info service (some key) drug_name).2
        = [stage1Query key (urlQuote drug_name), stage2Query key (urlQuote drug_name)])
    ∧ (∀ q ∈ (search_drug_info service (some key) drug_name).2,
        q.numOfRows = ("3").data ∧ q.qtype = ("json").data)
    ∧ (∀ (rc : Option Str) (its : List RawItem),
        (rc = some ("00").data ∨ rc = some ("0").data) → its ≠ [] →
        service (stage1Query key (urlQuote drug_name)) = ApiResult.parsed rc (some its) →
        (search_drug_info service (some key) drug_name).1
          = some (its.map (fun it => extract_drug_info it drug_name))) := by
  have hne : ¬(key.isEmpty = true) := fun h => hk (List.isEmpty_iff.mp h)
  refine ⟨fun ht => ?_, fun ht => ?_, fun q hq => ?_, fun rc its hrc hits hsrv => ?_⟩
  · simp only [search_drug_info]
    rw [if_neg hne, if_pos ht]
  · simp only [search_drug_info]
    rw [if_neg hne, if_neg (by rw [ht]; exact Bool.false_ne_true)]
    split <;> rfl
  · simp only [search_drug_info] at hq
    rw [if_neg hne] at hq
    cases ht : optTruthy (perform_search (service (stage1Query key (urlQuote drug_name)))
        drug_name true) with
    | true =>
      rw [if_pos ht] at hq
      rcases List.mem_singleton.mp hq with rfl
      exact ⟨rfl, rfl⟩
    | false =>
      rw [if_neg (by rw [ht]; exact Bool.false_ne_true)] at hq
      have hq2 : q ∈ [stage1Query key (urlQuote drug_name),
          stage2Query key (urlQuote drug_name)] := by
        split at hq <;> exact hq
      rcases List.mem_cons.mp hq2 with rfl | hq3
      · exact ⟨rfl, rfl⟩
      · rcases List.mem_singleton.mp hq3 with rfl
        exact ⟨rfl, rfl⟩
  · obtain ⟨it, rest, rfl⟩ : ∃ it rest, its = it :: rest := by
      cases its with
      | nil => exact absurd rfl hits
      | cons it rest => exact ⟨it, rest, rfl⟩
    have hp : perform_search (service (stage1Query key (urlQuote drug_name))) drug_name true
        = some ((it :: rest).map (fun x => extract_drug_info x drug_name)) := by
      rw [hsrv]
      simp only [perform_search]
      rw [if_pos hrc]
      simp
    have ht : optTruthy (perform_search (service (stage1Query key (urlQuote drug_name)))
        drug_name true) = true := by
      rw [hp]; rfl
    simp only [search_drug_info]
    rw [if_neg hne, if_pos ht, hp]

/-- C8: the medication list stays unique by folded name: inserting a name
whose folded, canonicalized form already occurs is a no-op; otherwise
exactly the one new entry is appended, with the canonicalized name and the
mapped ingredient or the sentinel; and the add operation preserves
uniqueness of folded names. -/
theorem c8_add_drug_spec :
    (∀ (my_drugs : List MedEntry) (s : Str),
       pyStrip s ≠ [] →
       pyLower (pyCapitalize (pyStrip s)) ∈ my_drugs.map (fun d => pyLower d.name) →
       add_drug my_drugs (some s) = my_drugs)
    ∧ (∀ (my_drugs : List MedEntry) (s : Str),
       pyStrip s ≠ [] →
       pyLower (pyCapitalize (pyStrip s)) ∉ my_drugs.map (fun d => pyLower d.name) →
       add_drug my_drugs (some s)
         = my_drugs ++ [{ name := pyCapitalize (pyStrip s),
                          ingredient :=
                            (mapGet DRUG_INGREDIENT_MAP (pyCapitalize (pyStrip s))).getD
                              (("ingredient unknown").data) }])
    ∧ (∀ (my_drugs : List MedEntry) (raw : Option Str),
       (my_drugs.map (fun d => pyLower d.name)).Nodup →
       ((add_drug my_drugs raw).map (fun d => pyLower d.name)).Nodup) := by
  have hstep : ∀ (my_drugs : List MedEntry) (s : Str), pyStrip s ≠ [] →
      add_drug my_drugs (some s)
        = (if pyLower (pyCapitalize (pyStrip s)) ∈ my_drugs.map (fun d => pyLower d.name)
           then my_drugs
           else my_drugs ++ [{ name := pyCapitalize (pyStrip s),
                               ingredient :=
                                 (mapGet DRUG_INGREDIENT_MAP (pyCapitalize (pyStrip s))).getD
                                   (("ingredient unknown").data) }]) := by
    intro my_drugs s hs
    have hs0 : s.isEmpty = false :=
      Bool.eq_false_iff.mpr (fun he => hs (by rw [List.isEmpty_iff.mp he]; rfl))
    have hs1 : (pyStrip s).isEmpty = false :=
      Bool.eq_false_iff.mpr (fun he => hs (List.isEmpty_iff.mp he))
    unfold add_drug
    simp only [hs0, Bool.false_eq_true, if_false, hs1]
  refine ⟨fun my_drugs s hs hmem => ?_, fun my_drugs s hs hmem => ?_,
    fun my_drugs raw hnd => ?_⟩
  · rw [hstep my_drugs s hs, if_pos hmem]
  · rw [hstep my_drugs s hs, if_neg hmem]
  · match raw with
    | none => exact hnd
    | some s =>
      by_cases hs : pyStrip s = []
      · have : add_drug my_drugs (some s) = my_drugs := by
          unfold add_drug
          by_cases hs0 : s.isEmpty <;> simp [hs0, hs]
        rw [this]; exact hnd
      · rw [hstep my_drugs s hs]
        by_cases hmem : pyLower (pyCapitalize (pyStrip s))
            ∈ my_drugs.map (fun d => pyLower d.name)
        · rw [if_pos hmem]; exact hnd
        · rw [if_neg hmem, List.map_append]
          refine (List.perm_append_singleton _ _).nodup_iff.mpr ?_
          exact List.nodup_cons.mpr ⟨hmem, hnd⟩

/-!
Concrete scenario data and witnesses.
-/

/-- The raw item of the end-to-end scenario: the service record whose
interaction text mentions acetaminophen. -/
def c1Item : RawItem := fun k =>
  if k = ("intrcQesitm").data then some (("Do not take with acetaminophen").data)
  else if k = ("itemName").data then some (("Aspirin").data)
  else none

/-- The external service of the end-to-end scenario: stage 1 returns the
single record above. -/
def c1Service : Query → ApiResult := fun q =>
  match q.filterField with
  | FilterKind.itemName => ApiResult.parsed (some ("00").data) (some [c1Item])
  | FilterKind.ingrName => ApiResult.transportError

/-- The normalized record of the end-to-end scenario. -/
def c1Record : DrugRecord :=
  { effect := ("no information").data, dosage := ("no information").data,
    precaution := ("no information").data,
    interactionText := ("Do not take with acetaminophen").data,
    ingredient := ("no information").data,
    name := ("Aspirin").data, itemSeq := none }

/-- C1: with the medication list holding Tylenol whose ingredient is
Acetaminophen, and a search for Aspirin resolving to one record whose
interaction text is "Do not take with acetaminophen", the matcher produces
exactly one warning whose conflict label is the composed ingredient form
"registered drug (ingredient: ACETAMINOPHEN)", because the matched keyword
equals an ingredient value of the map after case folding. -/
theorem c1_end_to_end_ingredient_label :
    (search_drug_info c1Service (some ("KEY").data) (("Aspirin").data)).1 = some [c1Record]
    ∧ check_contraindications [c1Record]
        [{ name := ("Tylenol").data, ingredient := ("Acetaminophen").data }]
      = [{ searched_drug := ("Aspirin").data,
           conflict_drug := ("registered drug (ingredient: ACETAMINOPHEN)").data,
           info := ("Do not take with <b>acetaminophen</b>").data }] :=
  ⟨by decide, by decide⟩

/-- Record used by the highlight witness. -/
def c3Record : DrugRecord :=
  { effect := ("no information").data, dosage := ("no information").data,
    precaution := ("no information").data,
    interactionText := ("Avoid with Aspirin").data,
    ingredient := ("no information").data,
    name := ("SomeDrug").data, itemSeq := none }

/-- Witness for C3 at the specification example: keyword aspirin inside
"Avoid with Aspirin" is located at index 11, wrapped case-preserved, and
the warning is emitted with the highlighter output. -/
theorem c3_highlight_spec_witness :
    (highlightInfo (("Avoid with Aspirin").data) (("aspirin").data)
        = (("Avoid with Aspirin").data).take 11 ++ ("<b>").data
            ++ ((("Avoid with Aspirin").data).drop 11).take (("aspirin").data).length
            ++ ("</b>").data
            ++ (("Avoid with Aspirin").data).drop (11 + (("aspirin").data).length)
      ∧ pyLower (((("Avoid with Aspirin").data).drop 11).take (("aspirin").data).length)
          = ("aspirin").data)
    ∧ highlightInfo (("abc").data) (("zzz").data) = ("abc").data
    ∧ recordWarning [("aspirin").data] c3Record
        = some { searched_drug := c3Record.name,
                 conflict_drug := conflictLabel (("aspirin").data),
                 info := highlightInfo c3Record.interactionText (("aspirin").data) } := by
  refine ⟨?_, ?_, ?_⟩
  · have h := c3_highlight_spec.1 (("Avoid with Aspirin").data) (("aspirin").data) 11
      (by decide) (by decide)
    exact ⟨h.1, h.2.1⟩
  · exact c3_highlight_spec.2.1 _ _ (by decide)
  · exact c3_highlight_spec.2.2 _ _ _ (by decide) (by decide)

/-- Raw item used by the normalization witness. -/
def c4Item : RawItem := fun k =>
  if k = ("a").data then some (("  <p>abc</p> ").data)
  else if k = ("b").data then some (("None").data)
  else none

/-- Witness for C4 at concrete fields: an absent field and a None-valued
field yield the sentinel, a present field is tag-stripped and trimmed. -/
theorem c4_safe_extract_spec_witness :
    safe_extract c4Item (("zz").data) = ("no information").data
    ∧ safe_extract c4Item (("b").data) = ("no information").data
    ∧ safe_extract c4Item (("a").data)
        = pyStrip (removeAll ("</p>").data (removeAll ("<p>").data
            (("  <p>abc</p> ").data))) := by
  refine ⟨?_, ?_, ?_⟩
  · exact c4_safe_extract_spec.1 c4Item (("zz").data) (by decide)
  · exact c4_safe_extract_spec.2.1 c4Item (("b").data) (("None").data) (by decide) (by decide)
  · exact c4_safe_extract_spec.2.2 c4Item (("a").data) (("  <p>abc</p> ").data)
      (by decide) (by decide)

/-- Raw item used by the resolver stage witness. -/
def c5Item : RawItem := fun _ => none

/-- Service used by the resolver stage witness: stage 1 succeeds with one
item, stage 2 would fail. -/
def c5Service : Query → ApiResult := fun q =>
  match q.filterField with
  | FilterKind.itemName => ApiResult.parsed (some ("00").data) (some [c5Item])
  | FilterKind.ingrName => ApiResult.transportError

/-- Witness for C5: a truthy stage 1 makes the resolver return its
normalized items after issuing exactly the one itemName query. -/
theorem c5_resolver_stage_order_witness :
    search_drug_info c5Service (some ("K").data) (("Tylenol").data)
      = (some [extract_drug_info c5Item (("Tylenol").data)],
         [stage1Query ("K").data (urlQuote (("Tylenol").data))]) := by
  have h := (c5_resolver_stage_order c5Service (("K").data) (("Tylenol").data)
    (by decide)).1 (by decide)
  exact h.trans (by decide)

/-- Witness for C6: a service that always fails at transport still yields
the not-found value. -/
theorem c6_resolver_never_raises_witness :
    (search_drug_info (fun _ => ApiResult.transportError)
        (some ("K").data) (("X").data)).1 = none :=
  (c6_resolver_never_raises (fun _ => ApiResult.transportError) (("X").data)).2.2
    (("K").data) (fun _ => Or.inl rfl)

/-- Medication entry used by the add-drug witness. -/
def tylenolEntry : MedEntry :=
  { name := ("Tylenol").data, ingredient := ("Acetaminophen").data }

/-- Witness for C8: re-adding tylenol to a list holding Tylenol is a no-op,
adding it to the empty list appends the canonicalized entry with its mapped
ingredient, and adding Aspirin keeps the folded names unique. -/
theorem c8_add_drug_spec_witness :
    add_drug [tylenolEntry] (some ("tylenol").data) = [tylenolEntry]
    ∧ add_drug [] (some (" tylenol ").data) = [tylenolEntry]
    ∧ ((add_drug [tylenolEntry] (some ("Aspirin").data)).map
        (fun d => pyLower d.name)).Nodup := by
  refine ⟨?_, ?_, ?_⟩
  · exact c8_add_drug_spec.1 [tylenolEntry] _ (by decide) (by decide)
  · exact (c8_add_drug_spec.2.1 [] _ (by decide) (by decide)).trans (by decide)
  · exact c8_add_drug_spec.2.2 [tylenolEntry] _ (by decide)

/-- Record used by the empty-ingredient witness. -/
def c10Record : DrugRecord :=
  { effect := [], dosage := [], precaution := [],
    interactionText := ("hello").data, ingredient := [],
    name := ("X").data, itemSeq := none }

/-- Witness for C10: one entry with an empty ingredient makes the matcher
warn on a record whose text mentions no medication at all. -/
theorem c10_empty_ingredient_matches_everything_witness :
    [] ∈ buildKeywords [{ name := ("A").data, ingredient := [] }]
    ∧ (check_contraindications [c10Record]
        [{ name := ("A").data, ingredient := [] }]).length
        = ([c10Record].filter
            (fun r => decide
              (pyStrip (pyLower r.interactionText) ≠ ("no information").data))).length :=
  c10_empty_ingredient_matches_everything
    [{ name := ("A").data, ingredient := [] }] [c10Record] (by decide)

end DrugSafety
